import Mathlib

/-!
Verification of the batch-system adapter layer of the toil repository
(src/toil/batchSystems/kubernetes.py and src/toil/batchSystems/slurm.py),
as a shallow embedding in Lean 4.

Python strings are modelled as lists of characters (type PyStr below).
Machine integers in the sources are Python arbitrary-precision ints, so
they are modelled as Nat / Int directly, with no overflow.
-/

/-- Python strings are sequences of characters; we model them as List Char. -/
abbrev PyStr := List Char

/-- Coerce a Lean string literal to the PyStr model. -/
def pychars (s : String) : PyStr := s.data

/-! ### Model of Python str()/int() for nonnegative decimal numerals

Python str() on a nonnegative int produces the decimal numeral; int() parses
an optionally signed decimal numeral and raises ValueError otherwise (we model
the raise as none).  These model the uses in kubernetes.py
(jobName = self.job_prefix + str(jobID); int(name[len(self.job_prefix):]))
and slurm.py (int() on sacct/squeue fields). -/

/-- Decimal digit value of a character, none if not 0-9. -/
def decDigit? (c : Char) : Option Nat :=
  if 48 ≤ c.toNat ∧ c.toNat ≤ 57 then some (c.toNat - 48) else none

/-- One step of left-to-right decimal accumulation; none once a bad char is hit. -/
def decAccum (acc : Option Nat) (c : Char) : Option Nat :=
  match acc, decDigit? c with
  | some a, some d => some (10 * a + d)
  | _, _ => none

/-- Parse an unsigned decimal numeral; none when empty or any char is not a digit. -/
def decValue? (s : PyStr) : Option Nat :=
  match s with
  | [] => none
  | _ :: _ => s.foldl decAccum (some 0)

/-- Model of Python int() on a stripped token: optional sign then decimal digits. -/
def pyInt? (s : PyStr) : Option Int :=
  match s with
  | [] => none
  | c :: rest =>
    if c = '-' then (decValue? rest).map (fun n => -(n : Int))
    else if c = '+' then (decValue? rest).map (fun n => (n : Int))
    else (decValue? s).map (fun n => (n : Int))

/-- The character for a decimal digit value. -/
def digitChr (d : Nat) : Char := Char.ofNat (48 + d)

/-- Little-endian decimal digits of a natural number, with explicit fuel so that
the kernel can evaluate it; agrees with Nat.digits 10 (lemma below). -/
def natDigitsAux : Nat → Nat → List Nat
  | 0, _ => []
  | _ + 1, 0 => []
  | fuel + 1, n + 1 => ((n + 1) % 10) :: natDigitsAux fuel ((n + 1) / 10)

/-- Little-endian decimal digits of a natural number. -/
def natDigits (n : Nat) : List Nat := natDigitsAux n n

/-- Model of Python str() on a nonnegative int: the decimal numeral. -/
def pyStrOfNat (n : Nat) : PyStr :=
  if n = 0 then ['0'] else ((natDigits n).map digitChr).reverse

/-! ### Error model for the Kubernetes client (kubernetes.py)

Exceptions are identified by their Python type; retryable_kubernetes_errors =
[urllib3.exceptions.MaxRetryError, urllib3.exceptions.ProtocolError,
ApiException] (kubernetes.py lines 56-58).  An ApiException carries an HTTP
status code.  Exceptions of any other type are modelled by otherError. -/

inductive KubeError
  | maxRetryError
  | protocolError
  | apiException (status : Nat)
  | otherError (name : PyStr)
deriving DecidableEq, Repr

/-- Embeds is_retryable_kubernetes_error (kubernetes.py lines 61-69): true
exactly for the types in retryable_kubernetes_errors, any ApiException status. -/
def is_retryable_kubernetes_error (e : KubeError) : Bool :=
  match e with
  | .maxRetryError => true
  | .protocolError => true
  | .apiException _ => true
  | .otherError _ => false

/-! ### Retry wrappers (kubernetes.py lines 256-281)

The decorator toil.lib.retry.retry is declared outside src/, so its semantics
are modelled from the spec (section 4.2): the standard wrapper retries on the
transient conditions (the retryable_kubernetes_errors list) with a bounded
attempt budget; all other errors propagate immediately.  A remote call is
modelled as a function from the attempt index to that attempt's outcome. -/

/-- Modelled from the spec: the standard retry policy retries exactly the
transient conditions (connection errors, protocol errors, generic API errors),
which is the retryable_kubernetes_errors list passed to the decorator at
kubernetes.py line 256. -/
def standard_retries (e : KubeError) : Bool := is_retryable_kubernetes_error e

/-- Modelled from the spec: the expect-gone policy is identical to the standard
one except that a "not found" (404) ApiException is never retried, mirroring
the ErrorCondition(error=ApiException, error_codes=[404],
retry_on_this_condition=False) passed to the decorator at kubernetes.py
lines 269-274. -/
def expecting_gone_retries (e : KubeError) : Bool :=
  is_retryable_kubernetes_error e &&
    !(match e with
      | .apiException status => status == 404
      | _ => false)

/-- Modelled from the spec: the retry loop of toil.lib.retry.retry (declared
outside src/).  attempts k is the outcome of the k-th call of the wrapped
method; the loop re-calls while the error is classified retryable and the
attempt budget is not exhausted; on the last budgeted attempt the outcome
propagates as is. -/
def retryLoop {α : Type} (should : KubeError → Bool)
    (attempts : Nat → Except KubeError α) : Nat → Nat → Except KubeError α
  | k, 0 => attempts k
  | k, budget + 1 =>
    match attempts k with
    | .ok v => .ok v
    | .error e => if should e then retryLoop should attempts (k + 1) budget else .error e

/-- Embeds _try_kubernetes (kubernetes.py lines 256-267), with the retry
decorator modelled from the spec. -/
def _try_kubernetes {α : Type} (attempts : Nat → Except KubeError α)
    (budget : Nat) : Except KubeError α :=
  retryLoop standard_retries attempts 0 budget

/-- Embeds _try_kubernetes_expecting_gone (kubernetes.py lines 269-281), with
the retry decorator modelled from the spec. -/
def _try_kubernetes_expecting_gone {α : Type} (attempts : Nat → Except KubeError α)
    (budget : Nat) : Except KubeError α :=
  retryLoop expecting_gone_retries attempts 0 budget

/-! ### Job naming (kubernetes.py lines 489-492 and 739-749)

issueBatchJob derives the external job name as
jobName = self.job_prefix + str(jobID); _getIDForOurJob recovers the ID as
int(jobObject.metadata.name[len(self.job_prefix):]).  The per-instance
job_prefix string is passed explicitly as pfx. -/

/-- Embeds the naming in issueBatchJob: jobName = self.job_prefix + str(jobID). -/
def jobNameFor (pfx : PyStr) (jobID : Nat) : PyStr := pfx ++ pyStrOfNat jobID

/-- Embeds _getIDForOurJob: int(name[len(self.job_prefix):]); none models the
ValueError int() raises on a non-numeral. -/
def _getIDForOurJob (pfx : PyStr) (name : PyStr) : Option Int :=
  pyInt? (name.drop pfx.length)

/-! ### Data model for owned jobs and pods (kubernetes.py)

The dynamically typed Kubernetes client objects are modelled as records with
exactly the fields the adapter reads.  A field the Python code reads through
getattr(..., None) or that can be null is an Option. -/

/-- container_statuses[0].state.waiting; reason can be absent (None). -/
structure WaitingInfo where
  reason : Option PyStr
deriving DecidableEq, Repr

/-- container_statuses[0].state.terminated; only the exit code is read by the
code under verification (the finished_at timestamp feeds only the wall-time
bookkeeping, which no claim concerns). -/
structure TerminatedInfo where
  exit_code : Int
deriving DecidableEq, Repr

/-- container_statuses[0].state, with the waiting / terminated alternatives. -/
structure ContainerState where
  waiting : Option WaitingInfo
  terminated : Option TerminatedInfo
deriving DecidableEq, Repr

/-- One entry of pod.status.container_statuses; state is read through
getattr(..., 'state', None). -/
structure ContainerStatus where
  state : Option ContainerState
deriving DecidableEq, Repr

/-- pod.spec.containers[0]; mem_limit_bytes models
resources.limits['memory'] converted to bytes (the human2bytes converter
lives outside src/, so the quantity is modelled directly in bytes). -/
structure PodContainerSpec where
  mem_limit_bytes : Nat
deriving DecidableEq, Repr

/-- A V1Pod as the adapter reads it: metadata.name, the job-name label that
_getPodForJob selects on, status.container_statuses (None when the pod is
merely scheduled), and spec.containers. -/
structure KPod where
  name : PyStr
  job_name : PyStr
  container_statuses : Option (List ContainerStatus)
  spec_containers : List PodContainerSpec
deriving DecidableEq, Repr

/-- A V1Job as the adapter reads it: metadata.name, whether it matches the
field selector status.successful==1 used by _ourJobObject(onlySucceeded=True),
and status.failed read through getattr(j.status, 'failed', 0) (none models an
absent or null attribute). -/
structure KJob where
  name : PyStr
  succeeded : Bool
  status_failed : Option Int
deriving DecidableEq, Repr

/-- One container record of a metrics-server item; usage_memory_bytes models
containers[0].get('usage', {}).get('memory', '0') converted to bytes (none
models the missing key, which the code defaults to 0 bytes). -/
structure MetricsContainer where
  usage_memory_bytes : Option Nat
deriving DecidableEq, Repr

/-- One item of the metrics-server response; containers none models a missing
'containers' key, which the code defaults to [{}] (a single empty record). -/
structure MetricsItem where
  containers : Option (List MetricsContainer)
deriving DecidableEq, Repr

/-- The metrics-server query made by _isPodStuckOOM, as an oracle from the pod
name (the field selector metadata.name=<pod>) to the response items
(response.get('items', [])) or the exception the query raised. -/
abbrev MetricsOracle := PyStr → Except KubeError (List MetricsItem)

/-- Embeds _getPodForJob (kubernetes.py lines 600-640): the first pod carrying
the label job-name=<jobName>, or none if no page has one. -/
def _getPodForJob (pods : List KPod) (jobName : PyStr) : Option KPod :=
  pods.find? (fun p => p.job_name == jobName)

/-- Embeds _isPodStuckOOM (kubernetes.py lines 657-734).  The Python function
falls off the end (returning the falsy None) when at least minFreeBytes are
free; that implicit return is modelled as false, matching how every caller
uses the result (in an if condition).  A query exception whose type is in
retryable_kubernetes_errors yields False; any other exception is re-raised. -/
def _isPodStuckOOM (metrics : MetricsOracle) (podObject : KPod)
    (minFreeBytes : Nat) : Except KubeError Bool :=
  match metrics podObject.name with
  | .error e =>
    if is_retryable_kubernetes_error e then .ok false else .error e
  | .ok items =>
    match items with
    | [] => .ok false
    | item :: _ =>
      let containers := item.containers.getD [{ usage_memory_bytes := none }]
      match containers with
      | [] => .ok false
      | c :: _ =>
        let bytesUsed : Int := (c.usage_memory_bytes.getD 0 : Nat)
        match podObject.spec_containers with
        | [] => .error (.otherError (pychars "IndexError"))
        | sc :: _ =>
          let bytesAllowed : Int := (sc.mem_limit_bytes : Nat)
          if bytesAllowed - bytesUsed < (minFreeBytes : Int) then .ok true
          else .ok false

/-! ### Completion-candidate selection (kubernetes.py lines 851-915)

_getUpdatedBatchJobImmediately scans, after the local fast path returned
nothing: first every job of _ourJobObject(onlySucceeded=True) (overwriting the
candidate on each iteration, without break), then the owned jobs for a nonzero
failure count (break on first hit), then the owned jobs for a stuck pod
(break on first hit; image-pull-backoff checked before the OOM check within
each job). -/

inductive ChosenFor
  | done
  | failed
  | stuck
deriving DecidableEq, Repr

/-- Embeds the first loop (lines 856-859): each succeeded job overwrites
jobObject, so the surviving candidate is the last element. -/
def pickSucceeded (succeededJobs : List KJob) : Option KJob :=
  succeededJobs.foldl (fun _ j => some j) none

/-- failCount as computed at lines 865-868: getattr(j.status, 'failed', 0)
with None coerced to 0. -/
def failCount (j : KJob) : Int := j.status_failed.getD 0

/-- Embeds the second loop (lines 861-873): first job with failCount > 0. -/
def findFailedJob : List KJob → Option KJob
  | [] => none
  | j :: rest => if 0 < failCount j then some j else findFailedJob rest

/-- Embeds the per-job body of the third loop (lines 877-915): jobs whose pod
is missing or has no container statuses are skipped; a sole container waiting
with reason ImagePullBackOff is stuck; otherwise the pod is checked for the
stuck-OOM condition with the default margin of 2 MiB. -/
def jobStuckCheck (metrics : MetricsOracle) (pods : List KPod) (j : KJob) :
    Except KubeError Bool :=
  match _getPodForJob pods j.name with
  | none => .ok false
  | some pod =>
    match pod.container_statuses with
    | none => .ok false
    | some [] => .ok false
    | some (c0 :: _) =>
      let waitingInfo := c0.state.bind (fun s => s.waiting)
      match waitingInfo with
      | some w =>
        if w.reason = some (pychars "ImagePullBackOff") then .ok true
        else _isPodStuckOOM metrics pod (1024 * 1024 * 2)
      | none => _isPodStuckOOM metrics pod (1024 * 1024 * 2)

/-- Embeds the third loop (lines 875-915): first job whose stuck check fires;
an exception from the metrics query propagates out of the loop. -/
def findStuckJob (metrics : MetricsOracle) (pods : List KPod) :
    List KJob → Except KubeError (Option KJob)
  | [] => .ok none
  | j :: rest =>
    match jobStuckCheck metrics pods j with
    | .error e => .error e
    | .ok true => .ok (some j)
    | .ok false => findStuckJob metrics pods rest

/-- Embeds the candidate selection of _getUpdatedBatchJobImmediately
(kubernetes.py lines 851-915), in the priority order of the source. -/
def selectCandidate (metrics : MetricsOracle) (jobs : List KJob)
    (pods : List KPod) : Except KubeError (Option (KJob × ChosenFor)) :=
  match pickSucceeded (jobs.filter (fun j => j.succeeded)) with
  | some j => .ok (some (j, .done))
  | none =>
    match findFailedJob jobs with
    | some j => .ok (some (j, .failed))
    | none =>
      match findStuckJob metrics pods jobs with
      | .error e => .error e
      | .ok (some j) => .ok (some (j, .stuck))
      | .ok none => .ok none

/-! ### Result resolution and the immediate remote check as a state transition
(kubernetes.py lines 917-1034)

The cluster is modelled as the set of owned jobs and pods.  Once a candidate
is chosen, the adapter resolves the result record, issues a cascading delete
(job plus dependent pods) and blocks in _waitForJobDeath until the job is
confirmed absent; the post-state below is therefore the cluster without the
chosen job and its pods.  The wall-time bookkeeping (datetime arithmetic and
the external slow_down helper) is not modelled: no claim concerns it. -/

/-- EXIT_STATUS_UNAVAILABLE_VALUE is imported from
toil.batchSystems.abstractBatchSystem, which is outside src/.  Modelled from
the spec: a reserved sentinel exit status meaning "unavailable"; its concrete
numeric value is irrelevant to every claim. -/
def EXIT_STATUS_UNAVAILABLE_VALUE : Int := 255

/-- exitReason enum of the result record (imported type; the immediate check
always returns exitReason=None, kubernetes.py line 1034). -/
inductive BatchJobExitReason
  | FINISHED
  | FAILED
  | LOST
deriving DecidableEq, Repr

/-- The result record surfaced to the caller, without the wall-time field
(see the section comment). -/
structure UpdatedBatchJobInfo where
  jobID : Int
  exitStatus : Int
  exitReason : Option BatchJobExitReason
deriving DecidableEq, Repr

/-- Embeds the exit-status resolution at kubernetes.py lines 937-1007: pod
gone, stuck job, missing container statuses or missing termination info all
yield the sentinel; otherwise the sole container's terminated exit code. -/
def resolveExitStatus (pods : List KPod) (j : KJob) (chosenFor : ChosenFor) : Int :=
  match _getPodForJob pods j.name with
  | none => EXIT_STATUS_UNAVAILABLE_VALUE
  | some pod =>
    match chosenFor with
    | .stuck => EXIT_STATUS_UNAVAILABLE_VALUE
    | _ =>
      match pod.container_statuses with
      | none => EXIT_STATUS_UNAVAILABLE_VALUE
      | some [] => EXIT_STATUS_UNAVAILABLE_VALUE
      | some (c0 :: _) =>
        match c0.state.bind (fun s => s.terminated) with
        | none => EXIT_STATUS_UNAVAILABLE_VALUE
        | some t => t.exit_code

/-- The cluster state owned by one adapter instance: the jobs and pods
carrying its toil_run label. -/
structure ClusterState where
  jobs : List KJob
  pods : List KPod
deriving DecidableEq, Repr

/-- The cascading delete of a job confirmed by _waitForJobDeath
(kubernetes.py lines 1010-1025): the job and its dependent pods are absent
once the call returns. -/
def deleteJobCascading (jobName : PyStr) (s : ClusterState) : ClusterState :=
  { jobs := s.jobs.filter (fun j => !(j.name == jobName)),
    pods := s.pods.filter (fun p => !(p.job_name == jobName)) }

/-- Embeds _getUpdatedBatchJobImmediately (kubernetes.py lines 831-1034) after
the local fast path returned nothing, as a transition on the cluster state:
none if no done/failed/stuck candidate exists; otherwise the result record,
with the chosen job and its pods deleted-and-confirmed-gone before returning.
pfx is self.job_prefix; a ValueError from int() on a foreign job name is an
exception. -/
def _getUpdatedBatchJobImmediately (pfx : PyStr) (metrics : MetricsOracle)
    (s : ClusterState) :
    Except KubeError (Option UpdatedBatchJobInfo × ClusterState) :=
  match selectCandidate metrics s.jobs s.pods with
  | .error e => .error e
  | .ok none => .ok (none, s)
  | .ok (some (j, chosenFor)) =>
    match _getIDForOurJob pfx j.name with
    | none => .error (.otherError (pychars "ValueError"))
    | some jobID =>
      .ok (some { jobID := jobID,
                  exitStatus := resolveExitStatus s.pods j chosenFor,
                  exitReason := none },
           deleteJobCascading j.name s)

/-! ### Deletion-confirmation polling (kubernetes.py lines 1036-1059)

_waitForJobDeath reads the job in a loop; while the read succeeds it sleeps
backoffTime seconds (a float starting at 0.1) and doubles backoffTime while
it is below 6.4; a 404 from the read ends the loop.  Floats only take the
values 0.1 * 2^k for k ≤ 6, on which binary floating point doubling is exact,
so the sleeps are modelled as exact rationals.  The existence check is an
oracle: found k is true when the k-th read still finds the job.  The Python
loop is unbounded, so the model takes fuel; none means the fuel ran out
before a 404 was observed. -/

/-- Loop of _waitForJobDeath: poll index k, current backoff b; returns the
number of reads issued and the list of sleeps performed, in order. -/
def waitAux (found : Nat → Bool) : Nat → Nat → ℚ → Option (Nat × List ℚ)
  | 0, _, _ => none
  | fuel + 1, k, b =>
    if found k then
      match waitAux found fuel (k + 1) (if b < 64 / 10 then 2 * b else b) with
      | none => none
      | some (n, sleeps) => some (n, b :: sleeps)
    else some (k + 1, [])

/-- Embeds _waitForJobDeath (kubernetes.py lines 1036-1059): backoff starts at
0.1 seconds; returns (number of reads, sleeps performed). -/
def _waitForJobDeath (found : Nat → Bool) (fuel : Nat) : Option (Nat × List ℚ) :=
  waitAux found fuel 0 (1 / 10)

/-- Embeds the delete-then-confirm block of _getUpdatedBatchJobImmediately
(kubernetes.py lines 1010-1031): the job is deleted through the expect-gone
wrapper (so a 404 propagates immediately) and the surrounding except swallows
exactly ApiException with status 404 as success; deleteOutcome is the
outcome of the delete call.  ok none: the job was already gone (wait skipped);
ok (some r): deletion confirmed after r.1 reads.  The error on exhausted fuel
is a modelling artifact of the unbounded Python loop. -/
def deleteAndConfirm (deleteOutcome : Except KubeError Unit)
    (found : Nat → Bool) (fuel : Nat) : Except KubeError (Option (Nat × List ℚ)) :=
  match deleteOutcome with
  | .ok _ =>
    match _waitForJobDeath found fuel with
    | some r => .ok (some r)
    | none => .error (.otherError (pychars "fuel exhausted"))
  | .error (.apiException 404) => .ok none
  | .error e => .error e

/-! ### Job submission builder (kubernetes.py lines 336-469)

The kubernetes.client V1* objects are modelled as records with the fields
_create_affinity and _create_pod_spec set. -/

/-- V1NodeSelectorRequirement(key=..., operator=..., values=...); values is
absent for the DoesNotExist operator. -/
structure V1NodeSelectorRequirement where
  key : PyStr
  operator : PyStr
  values : Option (List PyStr)
deriving DecidableEq, Repr

structure V1NodeSelectorTerm where
  match_expressions : List V1NodeSelectorRequirement
deriving DecidableEq, Repr

structure V1NodeSelector where
  node_selector_terms : List V1NodeSelectorTerm
deriving DecidableEq, Repr

structure V1PreferredSchedulingTerm where
  weight : Nat
  preference : V1NodeSelector
deriving DecidableEq, Repr

/-- V1NodeAffinity; exactly one of the two fields is set by _create_affinity:
required_... is the hard rule, preferred_... the soft rule. -/
structure V1NodeAffinity where
  required_during_scheduling_ignored_during_execution : Option V1NodeSelector
  preferred_during_scheduling_ignored_during_execution :
    Option (List V1PreferredSchedulingTerm)
deriving DecidableEq, Repr

structure V1Affinity where
  node_affinity : V1NodeAffinity
deriving DecidableEq, Repr

/-- The resource dictionary {'cpu': ..., 'memory': ..., 'ephemeral-storage': ...}
built at kubernetes.py lines 408-410; memory quantities in bytes. -/
structure ResourceDict where
  cpu : Nat
  memory : Nat
  ephemeral_storage : Nat
deriving DecidableEq, Repr

structure V1ResourceRequirements where
  limits : ResourceDict
  requests : ResourceDict
deriving DecidableEq, Repr

/-- The volume sources used by _create_pod_spec. -/
inductive VolumeSource
  | host_path_directory (path : PyStr)
  | empty_dir
  | secret (secret_name : PyStr)
deriving DecidableEq, Repr

structure V1Volume where
  name : PyStr
  source : VolumeSource
deriving DecidableEq, Repr

structure V1VolumeMount where
  mount_path : PyStr
  name : PyStr
deriving DecidableEq, Repr

structure V1Container where
  command : List PyStr
  image : PyStr
  name : PyStr
  resources : V1ResourceRequirements
  volume_mounts : List V1VolumeMount
deriving DecidableEq, Repr

structure V1PodSpec where
  containers : List V1Container
  volumes : List V1Volume
  restart_policy : PyStr
  affinity : V1Affinity
  service_account_name : Option PyStr
deriving DecidableEq, Repr

/-- The upstream JobDescription as read by _create_pod_spec: cores, memory
and disk in bytes, and the preemptable flag. -/
structure JobDescription where
  cores : Nat
  memory : Nat
  disk : Nat
  preemptable : Bool
deriving DecidableEq, Repr

/-- The adapter configuration read by _create_pod_spec. -/
structure KubeConf where
  host_path : Option PyStr
  aws_secret_name : Option PyStr
  service_account : Option PyStr
  worker_work_dir : PyStr
  docker_image : PyStr
deriving DecidableEq, Repr

/-- Embeds _create_affinity (kubernetes.py lines 336-376): the anti-preemptible
node selector (NotIn SPOT, OR label absent); preemptable jobs get it as a
weight-1 preferred term, non-preemptable jobs get it as the required rule. -/
def _create_affinity (preemptable : Bool) : V1Affinity :=
  let preemptable_label := pychars "eks.amazonaws.com/capacityType"
  let preemptable_value := pychars "SPOT"
  let non_spot := [ { key := preemptable_label, operator := pychars "NotIn",
                      values := some [preemptable_value] : V1NodeSelectorRequirement } ]
  let unspecified := [ { key := preemptable_label, operator := pychars "DoesNotExist",
                         values := none : V1NodeSelectorRequirement } ]
  let node_selector_terms := [ { match_expressions := non_spot : V1NodeSelectorTerm },
                               { match_expressions := unspecified : V1NodeSelectorTerm } ]
  let node_selector := { node_selector_terms := node_selector_terms : V1NodeSelector }
  if preemptable then
    { node_affinity :=
      { required_during_scheduling_ignored_during_execution := none,
        preferred_during_scheduling_ignored_during_execution :=
          some [ { weight := 1, preference := node_selector } ] } }
  else
    { node_affinity :=
      { required_during_scheduling_ignored_during_execution := some node_selector,
        preferred_during_scheduling_ignored_during_execution := none } }

/-- Embeds _create_pod_spec (kubernetes.py lines 378-469).  command_list is
the argument vector returned by pack_job (a collaborator outside src/). -/
def _create_pod_spec (conf : KubeConf) (command_list : List PyStr)
    (job_desc : JobDescription) : V1PodSpec :=
  let requirements_dict : ResourceDict :=
    { cpu := job_desc.cores,
      memory := job_desc.memory + 1024 * 1024 * 512,
      ephemeral_storage := job_desc.disk + 1024 * 1024 * 512 }
  let limits_dict := requirements_dict
  let resources : V1ResourceRequirements :=
    { limits := limits_dict, requests := requirements_dict }
  let work_volume : V1Volume :=
    match conf.host_path with
    | some hp => { name := pychars "workdir", source := .host_path_directory hp }
    | none => { name := pychars "workdir", source := .empty_dir }
  let work_mount : V1VolumeMount :=
    { mount_path := conf.worker_work_dir, name := pychars "workdir" }
  let secret_volumes : List V1Volume :=
    match conf.aws_secret_name with
    | some sn => [ { name := pychars "s3-credentials", source := .secret sn } ]
    | none => []
  let secret_mounts : List V1VolumeMount :=
    match conf.aws_secret_name with
    | some _ => [ { mount_path := pychars "/root/.aws", name := pychars "s3-credentials" } ]
    | none => []
  let container : V1Container :=
    { command := command_list,
      image := conf.docker_image,
      name := pychars "runner-container",
      resources := resources,
      volume_mounts := [work_mount] ++ secret_mounts }
  { containers := [container],
    volumes := [work_volume] ++ secret_volumes,
    restart_policy := pychars "Never",
    affinity := _create_affinity job_desc.preemptable,
    service_account_name :=
      match conf.service_account with
      | some sa => if sa.isEmpty then none else some sa
      | none => none }

/-! ### Slurm backend (slurm.py)

String helpers modelling the Python str methods used there. -/

/-- Model of Python str.split(sep) for a single-character separator: always at
least one (possibly empty) field; adjacent separators give empty fields. -/
def splitOnChar (sep : Char) : PyStr → List PyStr
  | [] => [[]]
  | c :: rest =>
    let r := splitOnChar sep rest
    if c = sep then [] :: r
    else
      match r with
      | [] => [[c]]
      | h :: t => (c :: h) :: t

/-- Whitespace characters recognized by str.strip(). -/
def pyIsSpace (c : Char) : Bool :=
  c = ' ' || c = '\t' || c = '\n' || c = '\r'

/-- Model of Python str.strip(). -/
def pyStrip (s : PyStr) : PyStr :=
  ((s.dropWhile pyIsSpace).reverse.dropWhile pyIsSpace).reverse

/-- Model of Python str.replace(old, new) for single characters. -/
def replaceChar (old new : Char) (s : PyStr) : PyStr :=
  s.map (fun c => if c = old then new else c)

/-! ### Elapsed-time parsing (slurm.py lines 305-320)

parse_elapsed normalizes '-' to ':', splits on ':', reverses, and accumulates
int(field) * multiplier for the first four positions inside one try block; the
first failing int() ends the loop with the total accumulated so far. -/

/-- The accumulation loop of parse_elapsed: fields already reversed,
multipliers [1, 60, 3600, 86400]; a failing int() returns the running total
(the ValueError is caught around the whole loop). -/
def elapsedAccum : List PyStr → List Int → Int → Int
  | _, [], total => total
  | [], _, total => total
  | f :: fs, m :: ms, total =>
    match pyInt? f with
    | none => total
    | some v => elapsedAccum fs ms (total + m * v)

/-- Embeds parse_elapsed (slurm.py lines 305-320). -/
def parse_elapsed (elapsed : PyStr) : Int :=
  elapsedAccum ((splitOnChar ':' (replaceChar '-' ':' elapsed)).reverse)
    [1, 60, 3600, 86400] 0

/-! ### Accounting-query parsing (slurm.py lines 134-176) -/

/-- The per-job status tuple held in the job_statuses dict: (state, rc),
both None until a record is seen. -/
abbrev SStatus := Option PyStr × Option Int

/-- Model of a Python dict with Int keys as an insertion-ordered association
list: assignment updates in place or appends. -/
def dictSet {V : Type} (k : Int) (v : V) : List (Int × V) → List (Int × V)
  | [] => [(k, v)]
  | (k0, v0) :: rest =>
    if k0 = k then (k, v) :: rest else (k0, v0) :: dictSet k v rest

/-- Dict lookup (None-free: a missing key is a KeyError at the use sites). -/
def dictFind? {V : Type} (k : Int) : List (Int × V) → Option V
  | [] => none
  | (k0, v0) :: rest => if k0 = k then some v0 else dictFind? k rest

/-- Embeds the exit-code computation 'status, signal = [int(n) for n in
exitcode.split(':')]' of _getJobDetailsFromSacct: error models the ValueError
from int() or from unpacking a list whose length is not 2. -/
def parseExitField (exitcode : PyStr) : Except Unit (Int × Int) :=
  match (splitOnChar ':' exitcode).mapM pyInt? with
  | none => .error ()
  | some [a, b] => .ok (a, b)
  | some _ => .error ()

/-- Embeds the per-line body of _getJobDetailsFromSacct (slurm.py lines
156-174): ok none when the line is skipped (fewer than three pipe-separated
fields, or a sub-step job ID containing '.'); otherwise the parsed
(job id, state, effective status), where a nonzero terminating signal
becomes 128 + signal; error models a ValueError (bad int, or a line with
more than three fields failing tuple unpacking). -/
def parseSacctLine (line : PyStr) : Except Unit (Option (Int × PyStr × Int)) :=
  let values := splitOnChar '|' (pyStrip line)
  match values with
  | [job_id_raw, state, exitcode] =>
    let job_id_parts := splitOnChar '.' job_id_raw
    if job_id_parts.length > 1 then .ok none
    else
      match pyInt? job_id_raw with
      | none => .error ()
      | some job_id =>
        match parseExitField exitcode with
        | .error e => .error e
        | .ok (status, signal) =>
          .ok (some (job_id, state,
            if 0 < signal then 128 + signal else status))
  | vs => if vs.length < 3 then .ok none else .error ()

/-- Embeds _getJobDetailsFromSacct (slurm.py lines 134-176): the dict is
initialized with (None, None) for every requested job ID, then updated from
each stdout line; stdout is the text produced by the sacct call. -/
def _getJobDetailsFromSacct (stdout : PyStr) (job_id_list : List Int) :
    Except Unit (List (Int × SStatus)) :=
  let init := job_id_list.foldl
    (fun d i => dictSet i ((none, none) : SStatus) d) []
  (splitOnChar '\n' stdout).foldlM
    (fun d line =>
      match parseSacctLine line with
      | .error e => .error e
      | .ok none => .ok d
      | .ok (some (job_id, state, status)) =>
        .ok (dictSet job_id ((some state, some status) : SStatus) d))
    init

/-! ### Exit-code resolution glue (slurm.py lines 78-132)

coalesce_job_exit_codes and getJobExitCode both call
self._get_job_details(job_id_list), which runs sacct and falls back to
scontrol on a CalledProcessErrorStderr.  Both call it with the job-id list
derived the same way, so it is passed in as the function details below;
claim C10's proviso about the underlying query is a hypothesis on it. -/

/-- The running-like states of _get_job_return_code (slurm.py line 130). -/
def runningStates : List PyStr :=
  [pychars "PENDING", pychars "RUNNING", pychars "CONFIGURING",
   pychars "COMPLETING", pychars "RESIZING", pychars "SUSPENDED"]

/-- Embeds _get_job_return_code (slurm.py lines 121-132): None while the job
is in a running-like state, otherwise the stored return code. -/
def _get_job_return_code (status : SStatus) : Option Int :=
  match status.1 with
  | some state => if state ∈ runningStates then none else status.2
  | none => status.2

/-- The job id extracted from a batch job ID string "<job>[.<task>]":
int(id.split('.')[0]). -/
def jobIdOfBatchId (s : PyStr) : Option Int :=
  pyInt? ((splitOnChar '.' s).headD [])

/-- Embeds coalesce_job_exit_codes (slurm.py lines 78-92); the error models
the ValueError from int() on a malformed ID. -/
def coalesce_job_exit_codes (details : List Int → List (Int × SStatus))
    (batch_job_id_list : List PyStr) : Except Unit (List (Option Int)) :=
  match batch_job_id_list.mapM jobIdOfBatchId with
  | none => .error ()
  | some job_id_list =>
    .ok ((details job_id_list).map (fun p => _get_job_return_code p.2))

/-- Embeds getJobExitCode (slurm.py lines 94-105); the first error models the
ValueError from int(), the second the KeyError from status_dict[job_id]. -/
def getJobExitCode (details : List Int → List (Int × SStatus))
    (batchJobID : PyStr) : Except Unit (Option Int) :=
  match jobIdOfBatchId batchJobID with
  | none => .error ()
  | some job_id =>
    match dictFind? job_id (details [job_id]) with
    | none => .error ()
    | some status => .ok (_get_job_return_code status)

instance {e a : Type} [DecidableEq e] [DecidableEq a] : DecidableEq (Except e a) := fun x y =>
  match x, y with
  | .ok u, .ok v =>
    if h : u = v then isTrue (by rw [h]) else
      isFalse (fun hc => h (by injection hc))
  | .error u, .error v =>
    if h : u = v then isTrue (by rw [h]) else
      isFalse (fun hc => h (by injection hc))
  | .ok _, .error _ => isFalse (fun hc => by injection hc)
  | .error _, .ok _ => isFalse (fun hc => by injection hc)

/-! ### Helper lemmas -/

/-- The backoff recurrence of _waitForJobDeath: double while below the
6.4-second cap. -/
def backoffStep (b : ℚ) : ℚ := if b < 64 / 10 then 2 * b else b

/-- i-fold application of the backoff recurrence. -/
def backoffIter : Nat → ℚ → ℚ
  | 0, b => b
  | i + 1, b => backoffIter i (backoffStep b)

/-! ### Theorems -/

theorem natDigitsAux_eq_digits (fuel : Nat) :
    ∀ n, n ≤ fuel → natDigitsAux fuel n = Nat.digits 10 n := by
  induction fuel with
  | zero =>
    intro n hn
    interval_cases n
    simp [natDigitsAux]
  | succ fuel ih =>
    intro n hn
    match n with
    | 0 => simp [natDigitsAux]
    | m + 1 =>
      rw [natDigitsAux, Nat.digits_def' (by norm_num : (1:ℕ) < 10) (Nat.succ_pos m)]
      have hdiv : (m + 1) / 10 ≤ fuel := by
        have h1 : (m + 1) / 10 < m + 1 := Nat.div_lt_self (Nat.succ_pos m) (by norm_num)
        omega
      rw [ih _ hdiv]

theorem natDigits_eq_digits (n : Nat) : natDigits n = Nat.digits 10 n :=
  natDigitsAux_eq_digits n n (Nat.le_refl n)

theorem digitChr_toNat {d : Nat} (hd : d < 10) : (digitChr d).toNat = 48 + d := by
  interval_cases d <;> rfl

theorem decDigit?_digitChr {d : Nat} (hd : d < 10) : decDigit? (digitChr d) = some d := by
  interval_cases d <;> rfl

theorem decAccum_some (a : Nat) {c : Char} {d : Nat} (h : decDigit? c = some d) :
    decAccum (some a) c = some (10 * a + d) := by
  simp [decAccum, h]

theorem decAccum_fold (ds : List Nat) (hds : ∀ d ∈ ds, d < 10) :
    ∀ a : Nat, List.foldl decAccum (some a) ((ds.map digitChr).reverse) =
      some (a * 10 ^ ds.length + Nat.ofDigits 10 ds) := by
  induction ds with
  | nil =>
    intro a
    simp [Nat.ofDigits_nil]
  | cons d tl ih =>
    intro a
    have hd : d < 10 := hds d (List.mem_cons_self d tl)
    have htl : ∀ x ∈ tl, x < 10 := fun x hx => hds x (List.mem_cons_of_mem d hx)
    rw [List.map_cons, List.reverse_cons, List.foldl_append, ih htl a]
    show decAccum (some (a * 10 ^ tl.length + Nat.ofDigits 10 tl)) (digitChr d) = _
    rw [decAccum_some _ (decDigit?_digitChr hd), Nat.ofDigits_cons, List.length_cons]
    ring_nf

/-- Every character of the printed numeral is a decimal digit character. -/
theorem pyStrOfNat_chars (n : Nat) :
    ∀ c ∈ pyStrOfNat n, 48 ≤ c.toNat ∧ c.toNat ≤ 57 := by
  intro c hc
  by_cases hn : n = 0
  · subst hn
    have h0 : pyStrOfNat 0 = ['0'] := rfl
    rw [h0, List.mem_singleton] at hc
    subst hc
    exact ⟨by decide, by decide⟩
  · simp only [pyStrOfNat, if_neg hn, List.mem_reverse, List.mem_map] at hc
    obtain ⟨d, hd, hcd⟩ := hc
    rw [natDigits_eq_digits] at hd
    have hdlt : d < 10 := Nat.digits_lt_base (by norm_num) hd
    subst hcd
    rw [digitChr_toNat hdlt]
    omega

/-- Round trip for the unsigned parse: decValue? inverts pyStrOfNat. -/
theorem decValue?_pyStrOfNat (n : Nat) : decValue? (pyStrOfNat n) = some n := by
  by_cases hn : n = 0
  · subst hn
    rfl
  · have hne : Nat.digits 10 n ≠ [] := Nat.digits_ne_nil_iff_ne_zero.mpr hn
    have hlt : ∀ d ∈ Nat.digits 10 n, d < 10 :=
      fun d hd => Nat.digits_lt_base (by norm_num) hd
    have hfold := decAccum_fold (Nat.digits 10 n) hlt 0
    rw [Nat.ofDigits_digits, Nat.zero_mul, Nat.zero_add] at hfold
    have hform : pyStrOfNat n = ((Nat.digits 10 n).map digitChr).reverse := by
      rw [pyStrOfNat, if_neg hn, natDigits_eq_digits]
    rw [hform]
    have hnonnil : ((Nat.digits 10 n).map digitChr).reverse ≠ [] := by
      simp [hne]
    match hrepr : ((Nat.digits 10 n).map digitChr).reverse, hnonnil with
    | c :: rest, _ =>
      rw [decValue?]
      rw [← hrepr, hfold]

/-- Round trip for the signed parse: pyInt? inverts pyStrOfNat. -/
theorem pyInt?_pyStrOfNat (n : Nat) : pyInt? (pyStrOfNat n) = some (n : Int) := by
  have hchars := pyStrOfNat_chars n
  have hval := decValue?_pyStrOfNat n
  match hrepr : pyStrOfNat n with
  | [] =>
    rw [hrepr] at hval
    exact absurd hval (by simp [decValue?])
  | c :: rest =>
    have hc : 48 ≤ c.toNat ∧ c.toNat ≤ 57 := by
      have := hchars c
      rw [hrepr] at this
      exact this (List.mem_cons_self c rest)
    have hcm : ¬ (c = '-') := by
      intro h
      subst h
      revert hc
      decide
    have hcp : ¬ (c = '+') := by
      intro h
      subst h
      revert hc
      decide
    rw [hrepr] at hval
    rw [pyInt?, if_neg hcm, if_neg hcp, hval]
    rfl

/-- pyStrOfNat is injective (via the round trip). -/
theorem pyStrOfNat_injective {m n : Nat} (h : pyStrOfNat m = pyStrOfNat n) : m = n := by
  have hm := decValue?_pyStrOfNat m
  have hn := decValue?_pyStrOfNat n
  rw [h, hn] at hm
  exact (Option.some_injective _ hm).symm

theorem _getIDForOurJob_jobNameFor (pfx : PyStr) (i : Nat) :
    _getIDForOurJob pfx (jobNameFor pfx i) = some (i : Int) := by
  rw [_getIDForOurJob, jobNameFor, List.drop_left, pyInt?_pyStrOfNat]

theorem jobNameFor_injective {pfx : PyStr} {i j : Nat}
    (h : jobNameFor pfx i = jobNameFor pfx j) : i = j := by
  rw [jobNameFor, jobNameFor] at h
  exact pyStrOfNat_injective (List.append_cancel_left h)

theorem elapsedAccum_sum (fs : List PyStr) :
    ∀ (ms : List Int) (total : Int),
      (∀ f ∈ fs.take ms.length, (pyInt? f).isSome = true) →
      elapsedAccum fs ms total =
        total + (List.zipWith (fun f m => m * ((pyInt? f).getD 0)) fs ms).sum := by
  induction fs with
  | nil =>
    intro ms total _
    cases ms <;> simp [elapsedAccum]
  | cons f fs ih =>
    intro ms total hall
    cases ms with
    | nil => simp [elapsedAccum]
    | cons m ms =>
      have hf : (pyInt? f).isSome = true := by
        apply hall
        simp [List.take]
      obtain ⟨v, hv⟩ := Option.isSome_iff_exists.mp hf
      have hrest : ∀ g ∈ fs.take ms.length, (pyInt? g).isSome = true := by
        intro g hg
        apply hall
        simp only [List.length_cons, List.take_succ_cons, List.mem_cons]
        exact Or.inr hg
      rw [elapsedAccum, hv]
      show elapsedAccum fs ms (total + m * v) = _
      rw [ih ms (total + m * v) hrest, List.zipWith_cons_cons, List.sum_cons, hv]
      show total + m * v + _ = total + (m * v + _)
      ring

/-- C8 counterexample: the input "x:5" is unparseable (int() fails on the
field "x"), yet parse_elapsed returns the partially accumulated 5 seconds,
not 0 as the claim states for every unparseable input. -/
theorem C8_parse_elapsed_counterexample :
    pyInt? (pychars "x") = none ∧
    parse_elapsed (pychars "x:5") = 5 ∧ ¬((5 : Int) = 0) := by
  refine ⟨by decide, by decide, by decide⟩

/-- C8 (amended): parse_elapsed normalizes '-' to ':', reverses the fields
and accumulates them with multipliers 1, 60, 3600, 86400 per position; when
every used field parses, the result is the positional sum (so "01:02:03"
gives 3723 and "1-00:00:00" gives 86400); when a field fails integer parsing
the accumulation stops there and the total so far is returned — in
particular 0 whenever the first reversed field (the seconds field) is
already unparseable, as for "INVALID" — and the function never raises. -/
theorem C8_parse_elapsed_amended :
    (∀ s : PyStr,
      (∀ f ∈ ((splitOnChar ':' (replaceChar '-' ':' s)).reverse).take 4,
        (pyInt? f).isSome = true) →
      parse_elapsed s =
        (List.zipWith (fun f m => m * ((pyInt? f).getD 0))
          ((splitOnChar ':' (replaceChar '-' ':' s)).reverse)
          [1, 60, 3600, 86400]).sum) ∧
    (∀ s : PyStr,
      pyInt? (((splitOnChar ':' (replaceChar '-' ':' s)).reverse).headD []) = none →
      parse_elapsed s = 0) ∧
    parse_elapsed (pychars "01:02:03") = 3723 ∧
    parse_elapsed (pychars "1-00:00:00") = 86400 ∧
    parse_elapsed (pychars "INVALID") = 0 := by
  refine ⟨?_, ?_, by decide, by decide, by decide⟩
  · intro s hall
    rw [parse_elapsed, elapsedAccum_sum _ [1, 60, 3600, 86400] 0 hall, Int.zero_add]
  · intro s hnone
    rw [parse_elapsed]
    match hrev : (splitOnChar ':' (replaceChar '-' ':' s)).reverse with
    | [] => rfl
    | f :: rest =>
      rw [hrev] at hnone
      simp only [List.headD_cons] at hnone
      rw [elapsedAccum, hnone]

/-- C8 witness: the amended theorem applied at the concrete inputs
"02:03" (all fields parse) and "INVALID" (first reversed field fails). -/
theorem C8_parse_elapsed_witness :
    parse_elapsed (pychars "02:03") =
      (List.zipWith (fun f m => m * ((pyInt? f).getD 0))
        ((splitOnChar ':' (replaceChar '-' ':' (pychars "02:03"))).reverse)
        [1, 60, 3600, 86400]).sum ∧
    parse_elapsed (pychars "INVALID") = 0 :=
  ⟨C8_parse_elapsed_amended.1 (pychars "02:03") (by decide),
   C8_parse_elapsed_amended.2.1 (pychars "INVALID") (by decide)⟩

/-- C7: each accounting output line is parsed as three pipe-delimited fields
(job ID, state, status:signal exit code); a record whose job ID carries a
sub-step suffix (contains '.') is discarded; a nonzero terminating signal is
converted to exit status 128 + signal, so exitcode "0:9" yields 137 and
"0:0" yields 0; the dict produced by _getJobDetailsFromSacct records the
converted status under the job ID. -/
theorem C7_sacct_lines :
    (∀ (line a b c : PyStr),
      splitOnChar '|' (pyStrip line) = [a, b, c] →
      (splitOnChar '.' a).length > 1 →
      parseSacctLine line = .ok none) ∧
    (∀ (line a b c : PyStr) (jid st sg : Int),
      splitOnChar '|' (pyStrip line) = [a, b, c] →
      ¬((splitOnChar '.' a).length > 1) →
      pyInt? a = some jid →
      parseExitField c = .ok (st, sg) →
      parseSacctLine line = .ok (some (jid, b, if 0 < sg then 128 + sg else st))) ∧
    parseExitField (pychars "0:9") = .ok (0, 9) ∧
    parseSacctLine (pychars "123|FAILED|0:9") =
      .ok (some (123, pychars "FAILED", 137)) ∧
    parseSacctLine (pychars "124|COMPLETED|0:0") =
      .ok (some (124, pychars "COMPLETED", 0)) ∧
    _getJobDetailsFromSacct (pychars "123|FAILED|0:9") [123] =
      .ok [(123, (some (pychars "FAILED"), some 137))] := by
  refine ⟨?_, ?_, by decide, by decide, by decide, by decide⟩
  · intro line a b c hsplit hdot
    simp only [parseSacctLine, hsplit, if_pos hdot]
  · intro line a b c jid st sg hsplit hdot hint hexit
    simp only [parseSacctLine, hsplit, if_neg hdot, hint, hexit]

/-- C7 witness: the per-line conjuncts applied at a sub-step record and at a
signal-carrying record. -/
theorem C7_sacct_lines_witness :
    parseSacctLine (pychars "77.batch|FAILED|0:9") = .ok none ∧
    parseSacctLine (pychars "77|FAILED|0:9") =
      .ok (some (77, pychars "FAILED", if (0 : Int) < 9 then 128 + 9 else 0)) :=
  ⟨C7_sacct_lines.1 (pychars "77.batch|FAILED|0:9")
      (pychars "77.batch") (pychars "FAILED") (pychars "0:9") (by decide) (by decide),
   C7_sacct_lines.2.1 (pychars "77|FAILED|0:9")
      (pychars "77") (pychars "FAILED") (pychars "0:9") 77 0 9
      (by decide) (by decide) (by decide) (by decide)⟩

/-- mapM of an Option-valued function over a one-element list. -/
theorem mapM_option_singleton {α β : Type} (f : α → Option β) (x : α) (b : β)
    (h : f x = some b) : List.mapM.loop f [x] [] = some [b] := by
  rw [List.mapM.loop, h]
  rfl

/-- C10: provided the status query reports exactly the requested job ID
(keys of the returned dict = the singleton requested list), the batched
resolver on a one-element list agrees with the per-job resolver:
coalesce_job_exit_codes details [x] = [getJobExitCode details x]; in
particular a job in a running-like state yields None (no result yet) in
both.  details is self._get_job_details, which both functions call with the
identically derived job-id list. -/
theorem C10_coalesce_refines_single :
    (∀ (details : List Int → List (Int × SStatus)) (x : PyStr) (i : Int),
      jobIdOfBatchId x = some i →
      (details [i]).map Prod.fst = [i] →
      coalesce_job_exit_codes details [x] =
        Except.map (fun c => [c]) (getJobExitCode details x)) ∧
    (∀ (details : List Int → List (Int × SStatus)) (x : PyStr) (i : Int)
       (state : PyStr) (rc : Option Int),
      jobIdOfBatchId x = some i →
      details [i] = [(i, (some state, rc))] →
      state ∈ runningStates →
      getJobExitCode details x = .ok none ∧
      coalesce_job_exit_codes details [x] = .ok [none]) := by
  constructor
  · intro details x i hx hkeys
    match hdet : details [i] with
    | [] =>
      rw [hdet] at hkeys
      exact absurd hkeys (by simp)
    | (k, st) :: rest =>
      rw [hdet] at hkeys
      simp only [List.map_cons, List.cons.injEq] at hkeys
      obtain ⟨hk, hrest⟩ := hkeys
      have hrestnil : rest = [] := List.map_eq_nil_iff.mp hrest
      subst hk
      subst hrestnil
      simp [coalesce_job_exit_codes, getJobExitCode, hx, hdet, dictFind?,
        Except.map, mapM_option_singleton jobIdOfBatchId x k hx]
  · intro details x i state rc hx hdet hrun
    have hret : _get_job_return_code ((some state, rc) : SStatus) = none := by
      simp [_get_job_return_code, hrun]
    constructor
    · simp [getJobExitCode, hx, hdet, dictFind?, hret]
    · simp [coalesce_job_exit_codes, hx, hdet, hret,
        mapM_option_singleton jobIdOfBatchId x i hx]

/-- C10 witness: both conjuncts applied to a concrete details function (built
so that the query reports exactly the requested ID, in a running state). -/
theorem C10_coalesce_refines_single_witness :
    coalesce_job_exit_codes
        (fun ids => ids.map (fun i => (i, (some (pychars "RUNNING"), none))))
        [pychars "5.batch"] =
      Except.map (fun c => [c])
        (getJobExitCode
          (fun ids => ids.map (fun i => (i, (some (pychars "RUNNING"), none))))
          (pychars "5.batch")) ∧
    getJobExitCode
        (fun ids => ids.map (fun i => (i, (some (pychars "RUNNING"), none))))
        (pychars "5.batch") = .ok none :=
  ⟨C10_coalesce_refines_single.1 _ (pychars "5.batch") 5 (by decide) (by decide),
   (C10_coalesce_refines_single.2 _ (pychars "5.batch") 5 (pychars "RUNNING")
      none (by decide) (by decide) (by decide)).1⟩

/-- C9: within one adapter instance (fixed job_prefix pfx) the external job
name jobName = job_prefix + str(i) is deterministic and injective, and
_getIDForOurJob recovers the internal ID from the name (round trip). -/
theorem C9_job_naming :
    ∀ (pfx : PyStr) (i j : Nat),
      jobNameFor pfx i = jobNameFor pfx i ∧
      (i ≠ j → jobNameFor pfx i ≠ jobNameFor pfx j) ∧
      _getIDForOurJob pfx (jobNameFor pfx i) = some (i : Int) := by
  intro pfx i j
  refine ⟨rfl, ?_, _getIDForOurJob_jobNameFor pfx i⟩
  intro hij hname
  exact hij (jobNameFor_injective hname)

/-- C9 witness: the naming theorem applied at a concrete prefix and the
distinct IDs 3 and 4. -/
theorem C9_job_naming_witness :
    (jobNameFor (pychars "alice-toil-7f-") 3 ≠ jobNameFor (pychars "alice-toil-7f-") 4) ∧
    _getIDForOurJob (pychars "alice-toil-7f-") (jobNameFor (pychars "alice-toil-7f-") 3) =
      some (3 : Int) :=
  ⟨(C9_job_naming (pychars "alice-toil-7f-") 3 4).2.1 (by decide),
   (C9_job_naming (pychars "alice-toil-7f-") 3 4).2.2⟩

/-- Retry classification: away from the 404 ApiException the expect-gone
policy decides exactly as the standard one. -/
theorem expecting_gone_retries_eq_standard {e : KubeError}
    (he : e ≠ .apiException 404) :
    expecting_gone_retries e = standard_retries e := by
  cases e with
  | apiException s =>
    have hs : ¬(s = 404) := fun h => he (by rw [h])
    simp [expecting_gone_retries, standard_retries, hs]
  | maxRetryError => rfl
  | protocolError => rfl
  | otherError n => rfl

theorem retryLoop_congr {α : Type} (attempts : Nat → Except KubeError α)
    (hno : ∀ k, attempts k ≠ .error (.apiException 404)) :
    ∀ (budget k : Nat),
      retryLoop expecting_gone_retries attempts k budget =
        retryLoop standard_retries attempts k budget := by
  intro budget
  induction budget with
  | zero => intro k; rfl
  | succ b ih =>
    intro k
    rw [retryLoop, retryLoop]
    match hk : attempts k with
    | .ok v => rfl
    | .error e =>
      have he : e ≠ .apiException 404 := by
        intro h
        exact hno k (by rw [hk, h])
      show (if expecting_gone_retries e = true then
              retryLoop expecting_gone_retries attempts (k + 1) b
            else .error e) =
           (if standard_retries e = true then
              retryLoop standard_retries attempts (k + 1) b
            else .error e)
      rw [expecting_gone_retries_eq_standard he]
      by_cases hs : standard_retries e = true
      · rw [if_pos hs, if_pos hs, ih (k + 1)]
      · rw [if_neg hs, if_neg hs]

/-- C6: through the expect-gone wrapper a "not found" (404) ApiException is
never retried — it propagates from the very first attempt regardless of the
budget — while any other error condition is classified, and hence the whole
call retried, exactly as in the standard wrapper.  Reason spec-modelled: the
retry decorator itself (toil.lib.retry) lives outside src/. -/
theorem C6_expecting_gone :
    (∀ (α : Type) (attempts : Nat → Except KubeError α) (budget : Nat),
      attempts 0 = .error (.apiException 404) →
      _try_kubernetes_expecting_gone attempts budget = .error (.apiException 404)) ∧
    (∀ e : KubeError, e ≠ .apiException 404 →
      expecting_gone_retries e = standard_retries e) ∧
    (∀ (α : Type) (attempts : Nat → Except KubeError α) (budget : Nat),
      (∀ k, attempts k ≠ .error (.apiException 404)) →
      _try_kubernetes_expecting_gone attempts budget = _try_kubernetes attempts budget) := by
  refine ⟨?_, fun e he => expecting_gone_retries_eq_standard he, ?_⟩
  · intro α attempts budget h0
    cases budget with
    | zero =>
      show attempts 0 = _
      exact h0
    | succ b =>
      show retryLoop expecting_gone_retries attempts 0 (b + 1) = _
      rw [retryLoop, h0]
      rfl
  · intro α attempts budget hno
    exact retryLoop_congr attempts hno budget 0

/-- C6 witness: a call whose first attempt 404s propagates immediately even
with budget left; a call failing with a transient connection error behaves
as under the standard wrapper. -/
theorem C6_expecting_gone_witness :
    _try_kubernetes_expecting_gone
        (fun _ => (.error (.apiException 404) : Except KubeError Unit)) 3 =
      .error (.apiException 404) ∧
    expecting_gone_retries .maxRetryError = standard_retries .maxRetryError ∧
    _try_kubernetes_expecting_gone
        (fun _ => (.error .maxRetryError : Except KubeError Unit)) 3 =
      _try_kubernetes (fun _ => (.error .maxRetryError : Except KubeError Unit)) 3 :=
  ⟨C6_expecting_gone.1 Unit _ 3 rfl,
   C6_expecting_gone.2.1 .maxRetryError (by decide),
   C6_expecting_gone.2.2 Unit _ 3 (fun _ h => by injection h with h; cases h)⟩

/-- C5: the built pod spec sets resource requests equal to limits, with
memory = declared memory + 512 MiB and ephemeral storage = declared disk
+ 512 MiB (cpu = declared cores); its placement comes from _create_affinity
on the preemptable flag, which for a non-preemptable job is a required
(hard) node-affinity rule excluding preemptible-labeled nodes (NotIn SPOT,
or label absent) with no preferred rule, and for a preemptable job only a
weight-1 preferred (soft) rule with no required rule. -/
theorem C5_pod_spec_resources_affinity :
    ∀ (conf : KubeConf) (command_list : List PyStr) (job_desc : JobDescription),
      ((_create_pod_spec conf command_list job_desc).containers.map
          (fun c => c.resources.requests)) =
        ((_create_pod_spec conf command_list job_desc).containers.map
          (fun c => c.resources.limits)) ∧
      ((_create_pod_spec conf command_list job_desc).containers.map
          (fun c => c.resources.requests)) =
        [{ cpu := job_desc.cores,
           memory := job_desc.memory + 1024 * 1024 * 512,
           ephemeral_storage := job_desc.disk + 1024 * 1024 * 512 }] ∧
      (_create_pod_spec conf command_list job_desc).affinity =
        _create_affinity job_desc.preemptable ∧
      _create_affinity false =
        { node_affinity :=
          { required_during_scheduling_ignored_during_execution :=
              some { node_selector_terms :=
                [ { match_expressions :=
                    [ { key := pychars "eks.amazonaws.com/capacityType",
                        operator := pychars "NotIn",
                        values := some [pychars "SPOT"] } ] },
                  { match_expressions :=
                    [ { key := pychars "eks.amazonaws.com/capacityType",
                        operator := pychars "DoesNotExist",
                        values := none } ] } ] },
            preferred_during_scheduling_ignored_during_execution := none } } ∧
      _create_affinity true =
        { node_affinity :=
          { required_during_scheduling_ignored_during_execution := none,
            preferred_during_scheduling_ignored_during_execution :=
              some [ { weight := 1,
                       preference := { node_selector_terms :=
                        [ { match_expressions :=
                            [ { key := pychars "eks.amazonaws.com/capacityType",
                                operator := pychars "NotIn",
                                values := some [pychars "SPOT"] } ] },
                          { match_expressions :=
                            [ { key := pychars "eks.amazonaws.com/capacityType",
                                operator := pychars "DoesNotExist",
                                values := none } ] } ] } } ] } } := by
  intro conf command_list job_desc
  refine ⟨rfl, rfl, rfl, rfl, rfl⟩

/-- C4 counterexample: a metrics-service query that raises an exception whose
type is not in retryable_kubernetes_errors (here a KeyError-like error) is
re-raised by _isPodStuckOOM (lines 692-704), so the claim that the check
returns not stuck for every error of the metrics-service query is false. -/
theorem C4_isPodStuckOOM_counterexample :
    _isPodStuckOOM (fun _ => .error (.otherError (pychars "KeyError")))
        { name := pychars "pod-1", job_name := pychars "job-1",
          container_statuses := none,
          spec_containers := [{ mem_limit_bytes := 1073741824 }] }
        (1024 * 1024 * 2) =
      .error (.otherError (pychars "KeyError")) ∧
    ¬(_isPodStuckOOM (fun _ => .error (.otherError (pychars "KeyError")))
        { name := pychars "pod-1", job_name := pychars "job-1",
          container_statuses := none,
          spec_containers := [{ mem_limit_bytes := 1073741824 }] }
        (1024 * 1024 * 2) =
      .ok false) := by
  exact ⟨by decide, by decide⟩

/-- C4 (amended): for a pod with one container and memory limit L, the
stuck-OOM check with the default 2 MiB margin reports stuck exactly when the
metrics service says the container uses more than L - 2 MiB bytes (so usage
L - 1 MiB gives stuck and usage L - 3 MiB gives not stuck, shown at
L = 1 GiB); a metrics-query error of one of the expected transient kinds
(the retryable_kubernetes_errors types) yields not stuck rather than
raising, while an error of any other type is re-raised (counterexample). -/
theorem C4_isPodStuckOOM_amended :
    (∀ (nm jn : PyStr) (cs : Option (List ContainerStatus)) (L u minFree : Nat),
      _isPodStuckOOM (fun _ => .ok [{ containers := some [{ usage_memory_bytes := some u }] }])
          { name := nm, job_name := jn, container_statuses := cs,
            spec_containers := [{ mem_limit_bytes := L }] }
          minFree =
        .ok (decide ((L : Int) - (u : Int) < (minFree : Int)))) ∧
    _isPodStuckOOM
        (fun _ => .ok [{ containers := some [{ usage_memory_bytes := some (1073741824 - 1024 * 1024) }] }])
        { name := pychars "p", job_name := pychars "j",
          container_statuses := none,
          spec_containers := [{ mem_limit_bytes := 1073741824 }] }
        (1024 * 1024 * 2) = .ok true ∧
    _isPodStuckOOM
        (fun _ => .ok [{ containers := some [{ usage_memory_bytes := some (1073741824 - 3 * (1024 * 1024)) }] }])
        { name := pychars "p", job_name := pychars "j",
          container_statuses := none,
          spec_containers := [{ mem_limit_bytes := 1073741824 }] }
        (1024 * 1024 * 2) = .ok false ∧
    (∀ (pod : KPod) (e : KubeError) (minFree : Nat),
      is_retryable_kubernetes_error e = true →
      _isPodStuckOOM (fun _ => .error e) pod minFree = .ok false) := by
  refine ⟨?_, by decide, by decide, ?_⟩
  · intro nm jn cs L u minFree
    show (if (L : Int) - (u : Int) < (minFree : Int) then
            (.ok true : Except KubeError Bool) else .ok false) = _
    by_cases h : (L : Int) - (u : Int) < (minFree : Int)
    · rw [if_pos h, decide_eq_true h]
    · rw [if_neg h, decide_eq_false h]
  · intro pod e minFree he
    show (if is_retryable_kubernetes_error e then
            (.ok false : Except KubeError Bool) else .error e) = _
    rw [he]
    rfl

/-- C4 witness: the margin characterization applied at limit 4 MiB and usage
3 MiB (1 MiB free, under the 2 MiB margin: stuck), and the
transient-error conjunct applied to a connection error. -/
theorem C4_isPodStuckOOM_witness :
    _isPodStuckOOM (fun _ => .ok [{ containers := some [{ usage_memory_bytes := some (3 * 1024 * 1024) }] }])
        { name := pychars "p", job_name := pychars "j",
          container_statuses := none,
          spec_containers := [{ mem_limit_bytes := 4 * 1024 * 1024 }] }
        (1024 * 1024 * 2) =
      .ok (decide (((4 * 1024 * 1024 : Nat) : Int) - ((3 * 1024 * 1024 : Nat) : Int) <
        ((1024 * 1024 * 2 : Nat) : Int))) ∧
    _isPodStuckOOM (fun _ => .error .maxRetryError)
        { name := pychars "p", job_name := pychars "j",
          container_statuses := none,
          spec_containers := [{ mem_limit_bytes := 4 * 1024 * 1024 }] }
        (1024 * 1024 * 2) = .ok false :=
  ⟨C4_isPodStuckOOM_amended.1 (pychars "p") (pychars "j") none
      (4 * 1024 * 1024) (3 * 1024 * 1024) (1024 * 1024 * 2),
   C4_isPodStuckOOM_amended.2.2.2
      { name := pychars "p", job_name := pychars "j",
        container_statuses := none,
        spec_containers := [{ mem_limit_bytes := 4 * 1024 * 1024 }] }
      .maxRetryError (1024 * 1024 * 2) (by decide)⟩

theorem backoffIter_succ_outer :
    ∀ (i : Nat) (b : ℚ), backoffIter (i + 1) b = backoffStep (backoffIter i b) := by
  intro i
  induction i with
  | zero => intro b; rfl
  | succ i ih =>
    intro b
    show backoffIter (i + 1) (backoffStep b) = _
    rw [ih (backoffStep b)]
    rfl

theorem backoffIter_tenth (i : Nat) :
    backoffIter i (1 / 10) = min ((1 / 10 : ℚ) * 2 ^ i) (64 / 10) := by
  induction i with
  | zero =>
    show (1 / 10 : ℚ) = _
    rw [pow_zero, mul_one]
    rw [min_eq_left (by norm_num)]
  | succ i ih =>
    rw [backoffIter_succ_outer, ih, backoffStep]
    by_cases h : ((1 / 10 : ℚ) * 2 ^ i) < 64 / 10
    · rw [min_eq_left (le_of_lt h), if_pos h]
      have h2 : ((2 : ℚ)) ^ i < 64 := by
        nlinarith
      have hi : i < 6 := by
        have := (pow_lt_pow_iff_right₀ (by norm_num : (1 : ℚ) < 2)).mp
          (by norm_num at h2 ⊢; exact h2 : ((2 : ℚ)) ^ i < 2 ^ 6)
        exact this
      have h3 : ((2 : ℚ)) ^ (i + 1) ≤ 64 := by
        have : ((2 : ℚ)) ^ (i + 1) ≤ 2 ^ 6 :=
          pow_le_pow_right₀ (by norm_num) hi
        norm_num at this ⊢
        exact this
      rw [min_eq_left (by nlinarith)]
      ring
    · rw [min_eq_right (le_of_not_lt h), if_neg (by norm_num)]
      have hpos : (0 : ℚ) < (1 / 10 : ℚ) * 2 ^ i := by positivity
      have hsucc : ((2 : ℚ)) ^ (i + 1) = 2 * 2 ^ i := by ring
      rw [min_eq_right]
      nlinarith [le_of_not_lt h, hsucc]

theorem waitAux_spec (found : Nat → Bool) :
    ∀ (fuel k : Nat) (b : ℚ) (n : Nat) (sleeps : List ℚ),
      waitAux found fuel k b = some (n, sleeps) →
      n = k + sleeps.length + 1 ∧ found (n - 1) = false ∧
      (∀ j, k ≤ j → j < n - 1 → found j = true) ∧
      (∀ (i : Nat) (h : i < sleeps.length), sleeps.get ⟨i, h⟩ = backoffIter i b) := by
  intro fuel
  induction fuel with
  | zero =>
    intro k b n sleeps h
    exact absurd h (by simp [waitAux])
  | succ fuel ih =>
    intro k b n sleeps h
    rw [waitAux] at h
    by_cases hf : found k = true
    · rw [if_pos hf] at h
      match hinner : waitAux found fuel (k + 1) (if b < 64 / 10 then 2 * b else b) with
      | none =>
        rw [hinner] at h
        exact absurd h (by simp)
      | some (n', sleeps') =>
        rw [hinner] at h
        injection h with h
        injection h with h1 h2
        subst h1
        subst h2
        obtain ⟨hn, hfn, hall, hget⟩ := ih (k + 1) _ n' sleeps' hinner
        refine ⟨by simp [hn]; omega, hfn, ?_, ?_⟩
        · intro j hkj hjn
          by_cases hjk : j = k
          · rw [hjk]; exact hf
          · exact hall j (by omega) hjn
        · intro i hi
          match i with
          | 0 => exact rfl
          | i + 1 =>
            have hi' : i < sleeps'.length := by
              simp at hi
              omega
            have := hget i hi'
            show sleeps'.get ⟨i, hi'⟩ = backoffIter (i + 1) b
            rw [this]
            rfl
    · rw [if_neg hf] at h
      injection h with h
      injection h with h1 h2
      subst h1
      subst h2
      refine ⟨by simp, ?_, ?_, ?_⟩
      · simp
        exact eq_false_of_ne_true hf
      · intro j hkj hjn
        omega
      · intro i hi
        exact absurd hi (by simp)

/-- C3: _waitForJobDeath polls existence repeatedly and returns exactly when
the check first reports not found; the sleep before the (i+1)-th re-poll is
min(0.1 * 2^i, 6.4) seconds — exponential backoff from 0.1 s, doubling,
capped at 6.4 s.  With a not-found on the third poll it returns after
exactly three polls with the strictly increasing sleeps [0.1, 0.2]; and a
"not found" outcome of the preceding delete request is treated as success
(deleteAndConfirm returns ok), not as an error. -/
theorem C3_waitForJobDeath :
    (∀ (found : Nat → Bool) (fuel n : Nat) (sleeps : List ℚ),
      _waitForJobDeath found fuel = some (n, sleeps) →
      1 ≤ n ∧ found (n - 1) = false ∧
      (∀ j, j < n - 1 → found j = true) ∧
      sleeps.length = n - 1 ∧
      (∀ (i : Nat) (h : i < sleeps.length),
        sleeps.get ⟨i, h⟩ = min ((1 / 10 : ℚ) * 2 ^ i) (64 / 10))) ∧
    (_waitForJobDeath (fun k => decide (k < 2)) 10 = some (3, [1 / 10, 2 / 10]) ∧
      (1 / 10 : ℚ) < 2 / 10) ∧
    (∀ (found : Nat → Bool) (fuel : Nat),
      deleteAndConfirm (.error (.apiException 404)) found fuel = .ok none) := by
  refine ⟨?_, ⟨by norm_num [_waitForJobDeath, waitAux], by norm_num⟩, ?_⟩
  · intro found fuel n sleeps h
    obtain ⟨hn, hfn, hall, hget⟩ := waitAux_spec found fuel 0 (1 / 10) n sleeps h
    refine ⟨by omega, hfn, fun j hj => hall j (Nat.zero_le j) hj, by omega, ?_⟩
    intro i hi
    rw [hget i hi, backoffIter_tenth]
  · intro found fuel
    rfl

/-- C3 witness: the general conjunct applied to the oracle that reports the
job gone on the third poll, with fuel 10. -/
theorem C3_waitForJobDeath_witness :
    1 ≤ 3 ∧ ((fun k => decide (k < 2)) (3 - 1) : Bool) = false ∧
    (∀ j, j < 3 - 1 → ((fun k => decide (k < 2)) j : Bool) = true) ∧
    ([(1 / 10 : ℚ), 2 / 10].length = 3 - 1) ∧
    (∀ (i : Nat) (h : i < [(1 / 10 : ℚ), 2 / 10].length),
      [(1 / 10 : ℚ), 2 / 10].get ⟨i, h⟩ = min ((1 / 10 : ℚ) * 2 ^ i) (64 / 10)) :=
  C3_waitForJobDeath.1 (fun k => decide (k < 2)) 10 3 [1 / 10, 2 / 10]
    (by norm_num [_waitForJobDeath, waitAux])

theorem foldl_overwrite_ne_nil (l : List KJob) :
    ∀ (acc : Option KJob), l ≠ [] →
      List.foldl (fun _ j => some j) acc l = l.getLast? := by
  induction l with
  | nil => intro acc h; exact absurd rfl h
  | cons a t ih =>
    intro acc _
    show List.foldl (fun _ j => some j) (some a) t = _
    match t with
    | [] => rfl
    | b :: t' =>
      rw [ih (some a) (by simp), List.getLast?_cons_cons]

/-- pickSucceeded (the break-less first loop) yields the last element. -/
theorem pickSucceeded_eq_getLast? (l : List KJob) : pickSucceeded l = l.getLast? := by
  match l with
  | [] => rfl
  | a :: t => exact foldl_overwrite_ne_nil (a :: t) none (by simp)

/-- The second loop is List.find? on a positive fail count. -/
theorem findFailedJob_eq_find? (l : List KJob) :
    findFailedJob l = l.find? (fun j => decide (0 < failCount j)) := by
  induction l with
  | nil => rfl
  | cons j t ih =>
    rw [findFailedJob]
    by_cases h : 0 < failCount j
    · rw [if_pos h, List.find?_cons_of_pos _ (by simp [h])]
    · rw [if_neg h, ih, List.find?_cons_of_neg _ (by simp [h])]

/-- When no per-job stuck check errors, the third loop is List.find? on the
check returning true. -/
theorem findStuckJob_eq_find? (metrics : MetricsOracle) (pods : List KPod) :
    ∀ (l : List KJob),
      (∀ j ∈ l, ∃ b, jobStuckCheck metrics pods j = .ok b) →
      findStuckJob metrics pods l =
        .ok (l.find? (fun j => decide (jobStuckCheck metrics pods j = .ok true))) := by
  intro l
  induction l with
  | nil => intro _; rfl
  | cons j t ih =>
    intro hok
    obtain ⟨b, hb⟩ := hok j (List.mem_cons_self j t)
    rw [findStuckJob, hb]
    match b with
    | true =>
      rw [List.find?_cons_of_pos _ (by simp [hb])]
    | false =>
      rw [List.find?_cons_of_neg _ (by simp [hb]),
        ih (fun x hx => hok x (List.mem_cons_of_mem j hx))]

theorem findFailedJob_mem {l : List KJob} {j : KJob} (h : findFailedJob l = some j) :
    j ∈ l := by
  rw [findFailedJob_eq_find?] at h
  exact List.mem_of_find?_eq_some h

theorem findStuckJob_mem (metrics : MetricsOracle) (pods : List KPod) :
    ∀ {l : List KJob} {j : KJob},
      findStuckJob metrics pods l = .ok (some j) → j ∈ l := by
  intro l
  induction l with
  | nil => intro j h; exact absurd h (by simp [findStuckJob])
  | cons a t ih =>
    intro j h
    rw [findStuckJob] at h
    match hc : jobStuckCheck metrics pods a with
    | .error e =>
      rw [hc] at h
      exact absurd h (by simp)
    | .ok true =>
      rw [hc] at h
      injection h with h
      injection h with h
      exact h ▸ List.mem_cons_self a t
    | .ok false =>
      rw [hc] at h
      exact List.mem_cons_of_mem a (ih h)

/-- Any chosen candidate is one of the owned jobs. -/
theorem selectCandidate_mem {metrics : MetricsOracle} {jobs : List KJob}
    {pods : List KPod} {j : KJob} {c : ChosenFor}
    (h : selectCandidate metrics jobs pods = .ok (some (j, c))) : j ∈ jobs := by
  rw [selectCandidate] at h
  match hs : pickSucceeded (jobs.filter (fun j => j.succeeded)) with
  | some j0 =>
    rw [hs] at h
    injection h with h
    injection h with h
    have hj : j0 = j := congrArg Prod.fst h
    subst hj
    rw [pickSucceeded_eq_getLast?] at hs
    exact List.mem_of_mem_filter (List.mem_of_mem_getLast? hs)
  | none =>
    rw [hs] at h
    match hf : findFailedJob jobs with
    | some j0 =>
      rw [hf] at h
      injection h with h
      injection h with h
      have hj : j0 = j := congrArg Prod.fst h
      subst hj
      exact findFailedJob_mem hf
    | none =>
      rw [hf] at h
      match hk : findStuckJob metrics pods jobs with
      | .error e => rw [hk] at h; exact absurd h (by simp)
      | .ok none => rw [hk] at h; exact absurd h (by simp)
      | .ok (some j0) =>
        rw [hk] at h
        injection h with h
        injection h with h
        have hj : j0 = j := congrArg Prod.fst h
        subst hj
        exact findStuckJob_mem metrics pods hk

/-- C1 counterexample: with two succeeded jobs p-1 and p-2 (in that
enumeration order) the break-less first loop of
_getUpdatedBatchJobImmediately keeps overwriting the candidate, so the job
picked with reason done is the LAST succeeded job p-2, not the first
succeeded job p-1 as the claim states. -/
theorem C1_selection_counterexample :
    (([{ name := pychars "p-1", succeeded := true, status_failed := none },
       { name := pychars "p-2", succeeded := true, status_failed := none }] :
        List KJob).filter (fun j => j.succeeded)).head? =
      some { name := pychars "p-1", succeeded := true, status_failed := none } ∧
    selectCandidate (fun _ => .ok [])
        [{ name := pychars "p-1", succeeded := true, status_failed := none },
         { name := pychars "p-2", succeeded := true, status_failed := none }] [] =
      .ok (some ({ name := pychars "p-2", succeeded := true, status_failed := none },
        .done)) ∧
    ¬(selectCandidate (fun _ => .ok [])
        [{ name := pychars "p-1", succeeded := true, status_failed := none },
         { name := pychars "p-2", succeeded := true, status_failed := none }] [] =
      .ok (some ({ name := pychars "p-1", succeeded := true, status_failed := none },
        .done))) :=
  ⟨by decide, by decide, by decide⟩

/-- C1 (amended): the immediate remote completion check classifies in this
fixed priority order — if the enumeration of succeeded jobs is non-empty,
the LAST succeeded job is picked with reason done (the loop overwrites
without break); otherwise the first owned job with a nonzero failure count
is picked with reason failed; otherwise the first owned job whose pod is
stuck is picked with reason stuck, where within each job the
image-pull-backoff condition is checked before (and independently of) the
stuck-OOM check; if none match, the check returns none. -/
theorem C1_selection_amended :
    (∀ (metrics : MetricsOracle) (jobs : List KJob) (pods : List KPod) (j : KJob),
      (jobs.filter (fun j => j.succeeded)).getLast? = some j →
      selectCandidate metrics jobs pods = .ok (some (j, .done))) ∧
    (∀ (metrics : MetricsOracle) (jobs : List KJob) (pods : List KPod) (j : KJob),
      jobs.filter (fun j => j.succeeded) = [] →
      jobs.find? (fun j => decide (0 < failCount j)) = some j →
      selectCandidate metrics jobs pods = .ok (some (j, .failed))) ∧
    (∀ (metrics : MetricsOracle) (jobs : List KJob) (pods : List KPod),
      jobs.filter (fun j => j.succeeded) = [] →
      jobs.find? (fun j => decide (0 < failCount j)) = none →
      (∀ j ∈ jobs, ∃ b, jobStuckCheck metrics pods j = .ok b) →
      selectCandidate metrics jobs pods =
        .ok ((jobs.find? (fun j => decide (jobStuckCheck metrics pods j = .ok true))).map
          (fun j => (j, .stuck)))) ∧
    (∀ (metrics : MetricsOracle) (pods : List KPod) (j : KJob) (pod : KPod)
       (c0 : ContainerStatus) (rest : List ContainerStatus) (w : WaitingInfo),
      _getPodForJob pods j.name = some pod →
      pod.container_statuses = some (c0 :: rest) →
      c0.state.bind (fun s => s.waiting) = some w →
      w.reason = some (pychars "ImagePullBackOff") →
      jobStuckCheck metrics pods j = .ok true) := by
  refine ⟨?_, ?_, ?_, ?_⟩
  · intro metrics jobs pods j hlast
    rw [selectCandidate, pickSucceeded_eq_getLast?, hlast]
  · intro metrics jobs pods j hnone hfind
    rw [selectCandidate, pickSucceeded_eq_getLast?, hnone]
    show (match findFailedJob jobs with
          | some j => Except.ok (some (j, ChosenFor.failed))
          | none => _) = _
    rw [findFailedJob_eq_find?, hfind]
  · intro metrics jobs pods hnone hfail hok
    rw [selectCandidate, pickSucceeded_eq_getLast?, hnone]
    show (match findFailedJob jobs with
          | some j => Except.ok (some (j, ChosenFor.failed))
          | none =>
            match findStuckJob metrics pods jobs with
            | .error e => .error e
            | .ok (some j) => .ok (some (j, .stuck))
            | .ok none => .ok none) = _
    rw [findFailedJob_eq_find?, hfail, findStuckJob_eq_find? metrics pods jobs hok]
    match jobs.find? (fun j => decide (jobStuckCheck metrics pods j = .ok true)) with
    | some j => rfl
    | none => rfl
  · intro metrics pods j pod c0 rest w hpod hcs hw hreason
    simp [jobStuckCheck, hpod, hcs, hw, hreason]

/-- C1 witness: the amended selection theorem applied at concrete states:
a succeeded job behind another (done picks the last), a lone failed job, a
state with no candidate at all (stuck search returns none), and a pod
wedged in ImagePullBackOff reported stuck even though the metrics oracle
errors (the OOM check is never consulted). -/
theorem C1_selection_witness :
    selectCandidate (fun _ => .ok [])
        [{ name := pychars "q-1", succeeded := true, status_failed := none },
         { name := pychars "q-2", succeeded := true, status_failed := none }] [] =
      .ok (some ({ name := pychars "q-2", succeeded := true, status_failed := none },
        .done)) ∧
    selectCandidate (fun _ => .ok [])
        [{ name := pychars "q-3", succeeded := false, status_failed := some 1 }] [] =
      .ok (some ({ name := pychars "q-3", succeeded := false, status_failed := some 1 },
        .failed)) ∧
    selectCandidate (fun _ => .ok [])
        [{ name := pychars "q-4", succeeded := false, status_failed := none }] [] =
      .ok none ∧
    jobStuckCheck (fun _ => .error (.otherError (pychars "KeyError")))
        [{ name := pychars "pod-4", job_name := pychars "q-5",
           container_statuses := some [{ state := some { waiting := some { reason := some (pychars "ImagePullBackOff") }, terminated := none } }],
           spec_containers := [{ mem_limit_bytes := 1024 }] }]
        { name := pychars "q-5", succeeded := false, status_failed := none } =
      .ok true := by
  refine ⟨C1_selection_amended.1 (fun _ => .ok []) _ [] _ (by decide),
    C1_selection_amended.2.1 (fun _ => .ok []) _ [] _ (by decide) (by decide),
    ?_, ?_⟩
  · have h := C1_selection_amended.2.2.1 (fun _ => .ok [])
      [{ name := pychars "q-4", succeeded := false, status_failed := none }] []
      (by decide) (by decide)
      (by
        intro j hj
        rw [List.mem_singleton] at hj
        subst hj
        exact ⟨false, by decide⟩)
    rw [h]
    decide
  · exact C1_selection_amended.2.2.2
      (fun _ => .error (.otherError (pychars "KeyError")))
      [{ name := pychars "pod-4", job_name := pychars "q-5",
         container_statuses := some [{ state := some { waiting := some { reason := some (pychars "ImagePullBackOff") }, terminated := none } }],
         spec_containers := [{ mem_limit_bytes := 1024 }] }]
      { name := pychars "q-5", succeeded := false, status_failed := none }
      { name := pychars "pod-4", job_name := pychars "q-5",
        container_statuses := some [{ state := some { waiting := some { reason := some (pychars "ImagePullBackOff") }, terminated := none } }],
        spec_containers := [{ mem_limit_bytes := 1024 }] }
      { state := some { waiting := some { reason := some (pychars "ImagePullBackOff") }, terminated := none } }
      []
      { reason := some (pychars "ImagePullBackOff") }
      (by decide) (by decide) (by decide) (by decide)

theorem poll_some_inv (pfx : PyStr) (metrics : MetricsOracle) (s : ClusterState)
    (r : UpdatedBatchJobInfo) (s2 : ClusterState)
    (h : _getUpdatedBatchJobImmediately pfx metrics s = .ok (some r, s2)) :
    ∃ (j : KJob) (c : ChosenFor),
      selectCandidate metrics s.jobs s.pods = .ok (some (j, c)) ∧
      j ∈ s.jobs ∧
      _getIDForOurJob pfx j.name = some r.jobID ∧
      s2 = deleteJobCascading j.name s := by
  rw [_getUpdatedBatchJobImmediately] at h
  match hsel : selectCandidate metrics s.jobs s.pods with
  | .error e =>
    rw [hsel] at h
    exact Except.noConfusion h
  | .ok none =>
    rw [hsel] at h
    replace h : (Except.ok (none, s) :
        Except KubeError (Option UpdatedBatchJobInfo × ClusterState)) =
        .ok (some r, s2) := h
    injection h with h
    exact Option.noConfusion (congrArg Prod.fst h)
  | .ok (some (j, c)) =>
    rw [hsel] at h
    replace h : (match _getIDForOurJob pfx j.name with
      | none => (.error (.otherError (pychars "ValueError")) :
          Except KubeError (Option UpdatedBatchJobInfo × ClusterState))
      | some jobID =>
        .ok (some { jobID := jobID,
                    exitStatus := resolveExitStatus s.pods j c,
                    exitReason := none },
             deleteJobCascading j.name s)) = .ok (some r, s2) := h
    match hid : _getIDForOurJob pfx j.name with
    | none =>
      rw [hid] at h
      exact Except.noConfusion h
    | some jobID =>
      rw [hid] at h
      injection h with h
      have hr : some { jobID := jobID,
                       exitStatus := resolveExitStatus s.pods j c,
                       exitReason := none } = some r := congrArg Prod.fst h
      have hs2 : deleteJobCascading j.name s = s2 := congrArg Prod.snd h
      refine ⟨j, c, rfl, selectCandidate_mem hsel, ?_, hs2.symm⟩
      rw [hid]
      injection hr with hr
      rw [← hr]

/-- C2: when the immediate check returns a result record, the chosen job was
one of the owned jobs, the returned jobID is derived from its name, and the
job together with its pods is absent from the post-state (the cascading
delete confirmed by _waitForJobDeath before returning); consequently with a
single owned job a second poll after the result yields none, and across two
successive polls with no new submissions the same job ID is never returned
twice. -/
theorem C2_no_repeated_discovery :
    (∀ (pfx : PyStr) (metrics : MetricsOracle) (s : ClusterState)
       (r : UpdatedBatchJobInfo) (s2 : ClusterState),
      _getUpdatedBatchJobImmediately pfx metrics s = .ok (some r, s2) →
      ∃ j ∈ s.jobs, _getIDForOurJob pfx j.name = some r.jobID ∧
        (∀ k ∈ s2.jobs, k ∈ s.jobs ∧ k.name ≠ j.name) ∧
        (∀ p ∈ s2.pods, p ∈ s.pods ∧ p.job_name ≠ j.name)) ∧
    (∀ (pfx : PyStr) (metrics : MetricsOracle) (s : ClusterState) (j : KJob)
       (r : UpdatedBatchJobInfo) (s2 : ClusterState),
      s.jobs = [j] →
      _getUpdatedBatchJobImmediately pfx metrics s = .ok (some r, s2) →
      _getUpdatedBatchJobImmediately pfx metrics s2 = .ok (none, s2)) ∧
    (∀ (pfx : PyStr) (metrics : MetricsOracle) (s : ClusterState)
       (r1 : UpdatedBatchJobInfo) (s1 : ClusterState)
       (r2 : UpdatedBatchJobInfo) (s2 : ClusterState),
      (∀ j ∈ s.jobs, ∃ k : Nat, j.name = jobNameFor pfx k) →
      _getUpdatedBatchJobImmediately pfx metrics s = .ok (some r1, s1) →
      _getUpdatedBatchJobImmediately pfx metrics s1 = .ok (some r2, s2) →
      r1.jobID ≠ r2.jobID) := by
  refine ⟨?_, ?_, ?_⟩
  · intro pfx metrics s r s2 h
    obtain ⟨j, c, _, hmem, hid, hs2⟩ := poll_some_inv pfx metrics s r s2 h
    refine ⟨j, hmem, hid, ?_, ?_⟩
    · intro k hk
      rw [hs2] at hk
      have hk' := List.mem_filter.mp hk
      refine ⟨hk'.1, ?_⟩
      intro heq
      have := hk'.2
      rw [heq] at this
      simp at this
    · intro p hp
      rw [hs2] at hp
      have hp' := List.mem_filter.mp hp
      refine ⟨hp'.1, ?_⟩
      intro heq
      have := hp'.2
      rw [heq] at this
      simp at this
  · intro pfx metrics s j r s2 hjobs h
    obtain ⟨j0, c, _, hmem, _, hs2⟩ := poll_some_inv pfx metrics s r s2 h
    rw [hjobs, List.mem_singleton] at hmem
    subst hmem
    have hnil : s2.jobs = [] := by
      rw [hs2]
      show s.jobs.filter _ = []
      rw [hjobs]
      simp [List.filter]
    have hsel : selectCandidate metrics s2.jobs s2.pods = .ok none := by
      rw [hnil]
      rfl
    rw [_getUpdatedBatchJobImmediately, hsel]
  · intro pfx metrics s r1 s1 r2 s2 hwf h1 h2
    obtain ⟨j1, c1, _, hmem1, hid1, hs1⟩ := poll_some_inv pfx metrics s r1 s1 h1
    obtain ⟨j2, c2, _, hmem2, hid2, hs2⟩ := poll_some_inv pfx metrics s1 r2 s2 h2
    rw [hs1] at hmem2
    have hmem2' := List.mem_filter.mp hmem2
    obtain ⟨k1, hk1⟩ := hwf j1 hmem1
    obtain ⟨k2, hk2⟩ := hwf j2 hmem2'.1
    rw [hk1, _getIDForOurJob_jobNameFor] at hid1
    rw [hk2, _getIDForOurJob_jobNameFor] at hid2
    injection hid1 with hid1
    injection hid2 with hid2
    intro hrr
    rw [← hid1, ← hid2] at hrr
    have hk : k1 = k2 := by exact_mod_cast hrr
    have hnames : j2.name = j1.name := by
      rw [hk1, hk2, hk]
    have := hmem2'.2
    rw [hnames] at this
    simp at this

/-- C2 witness: every conjunct applied at a concrete two-job cluster state
(succeeded jobs u-3 and u-4, no pods, prefix "u-"). -/
theorem C2_no_repeated_discovery_witness :
    (∃ j ∈ [{ name := pychars "u-3", succeeded := true, status_failed := none },
            { name := pychars "u-4", succeeded := true, status_failed := none }],
      _getIDForOurJob (pychars "u-") (KJob.name j) =
        some (UpdatedBatchJobInfo.jobID { jobID := 4, exitStatus := 255, exitReason := none }) ∧
      (∀ k ∈ [{ name := pychars "u-3", succeeded := true, status_failed := none }],
        k ∈ [{ name := pychars "u-3", succeeded := true, status_failed := none },
             { name := pychars "u-4", succeeded := true, status_failed := none }] ∧
          KJob.name k ≠ KJob.name j) ∧
      (∀ p ∈ ([] : List KPod), p ∈ ([] : List KPod) ∧ KPod.job_name p ≠ KJob.name j)) ∧
    _getUpdatedBatchJobImmediately (pychars "u-") (fun _ => .ok [])
      { jobs := [], pods := [] } = .ok (none, { jobs := [], pods := [] }) ∧
    UpdatedBatchJobInfo.jobID { jobID := 4, exitStatus := 255, exitReason := none } ≠
      UpdatedBatchJobInfo.jobID { jobID := 3, exitStatus := 255, exitReason := none } := by
  refine ⟨?_, ?_, ?_⟩
  · exact C2_no_repeated_discovery.1 (pychars "u-") (fun _ => .ok [])
      { jobs := [{ name := pychars "u-3", succeeded := true, status_failed := none },
                 { name := pychars "u-4", succeeded := true, status_failed := none }],
        pods := [] }
      { jobID := 4, exitStatus := 255, exitReason := none }
      { jobs := [{ name := pychars "u-3", succeeded := true, status_failed := none }],
        pods := [] }
      (by decide)
  · exact C2_no_repeated_discovery.2.1 (pychars "u-") (fun _ => .ok [])
      { jobs := [{ name := pychars "u-3", succeeded := true, status_failed := none }],
        pods := [] }
      { name := pychars "u-3", succeeded := true, status_failed := none }
      { jobID := 3, exitStatus := 255, exitReason := none }
      { jobs := [], pods := [] }
      (by decide) (by decide)
  · exact C2_no_repeated_discovery.2.2 (pychars "u-") (fun _ => .ok [])
      { jobs := [{ name := pychars "u-3", succeeded := true, status_failed := none },
                 { name := pychars "u-4", succeeded := true, status_failed := none }],
        pods := [] }
      { jobID := 4, exitStatus := 255, exitReason := none }
      { jobs := [{ name := pychars "u-3", succeeded := true, status_failed := none }],
        pods := [] }
      { jobID := 3, exitStatus := 255, exitReason := none }
      { jobs := [], pods := [] }
      (by
        intro j hj
        rw [List.mem_cons, List.mem_singleton] at hj
        cases hj with
        | inl h => exact ⟨3, by rw [h]; decide⟩
        | inr h => exact ⟨4, by rw [h]; decide⟩)
      (by decide) (by decide)
